import Mathlib

/-!
Verification of the certificate-verification service (final1.py, ocr_service.py,
ocr_routes.py): a shallow embedding of the OCR field-extraction pipeline, the
SSIM suspicion-surface post-processing, the heatmap service wrapper, the
request processor and the CSV sink, together with theorems settling the
spec claims about them.

Text is modelled as `List Char` (Python `str`), text spans as `List String`
(the recognized texts from `READER.readtext`, in scan order).  The four
field regexes of `extract_fields` are embedded through a small backtracking
matcher reproducing Python `re` semantics for the constructs those patterns
use: ordered alternation, greedy and lazy repetition of single-character
classes, one capturing group, IGNORECASE literals, leftmost search.
-/

/-! ## Character and string primitives (Python `str` operations) -/

/-- Python whitespace class `\s` restricted to ASCII: space, tab, LF, CR,
vertical tab, form feed. -/
def isSpaceB (c : Char) : Bool :=
  c == ' ' || c == '\t' || c == '\n' || c == '\r' || c == '\x0b' || c == '\x0c'

/-- ASCII lower-casing of one character, as Python `str.lower` does on the
letters appearing in the certificate texts. -/
def lowerC (c : Char) : Char :=
  if 'A' ≤ c ∧ c ≤ 'Z' then Char.ofNat (c.toNat + 32) else c

/-- Python `str.lower` on a character list. -/
def toLowerL (l : List Char) : List Char := l.map lowerC

/-- Python `str.strip()`: drop leading and trailing whitespace. -/
def trimL (l : List Char) : List Char :=
  ((l.dropWhile isSpaceB).reverse.dropWhile isSpaceB).reverse

/-- Helper for `splitWs`: accumulate the current word (reversed) while
scanning. -/
def splitWsAux : List Char → List Char → List (List Char)
  | [], acc => if acc.isEmpty then [] else [acc.reverse]
  | c :: rest, acc =>
      if isSpaceB c then
        if acc.isEmpty then splitWsAux rest []
        else acc.reverse :: splitWsAux rest []
      else splitWsAux rest (c :: acc)

/-- Python `str.split()` with no argument: split on whitespace runs,
discarding empty pieces. -/
def splitWs (l : List Char) : List (List Char) := splitWsAux l []

/-- Python substring containment `needle in haystack`. -/
def containsSub (nd : List Char) : List Char → Bool
  | [] => nd.isEmpty
  | c :: rest => nd.isPrefixOf (c :: rest) || containsSub nd rest

/-- Python `" ".join(parts)`. -/
def joinSpace : List (List Char) → List Char
  | [] => []
  | l :: rest =>
      match rest with
      | [] => l
      | _ :: _ => l ++ ' ' :: joinSpace rest

/-! ## A backtracking regex engine for the patterns of `extract_fields`

Constructors cover exactly the constructs used by the four field patterns
in final1.py: literal characters (via classes), concatenation, ordered
alternation, greedy (`*`, `+`) and lazy (`*?`) repetition of one-character
classes, and a single capturing group. -/

inductive RE where
  | eps : RE
  | cls : (Char → Bool) → RE
  | cat : RE → RE → RE
  | alt : RE → RE → RE
  | starCls : Bool → (Char → Bool) → RE
  | plusCls : Bool → (Char → Bool) → RE
  | group : RE → RE

/-- Greedy star over a character class: consume as many `p`-characters as
possible, backtracking to fewer when the continuation fails. -/
def starGRun (p : Char → Bool) (s : List Char) (k : List Char → Option α) : Option α :=
  match s with
  | [] => k []
  | c :: rest =>
      if p c then (starGRun p rest k) <|> k (c :: rest)
      else k (c :: rest)

/-- Lazy star over a character class: try the continuation first, consuming
a character only when it fails. -/
def starLRun (p : Char → Bool) (s : List Char) (k : List Char → Option α) : Option α :=
  k s <|>
    match s with
    | [] => none
    | c :: rest => if p c then starLRun p rest k else none

/-- Backtracking matcher.  `cap` is the text captured so far by the (single)
group; the continuation `k` receives the remaining input and the capture.
Alternatives are tried left to right, so the first success in this priority
order is the overall result — Python `re`'s backtracking order. -/
def mtch : RE → List Char → Option (List Char) →
    (List Char → Option (List Char) → Option α) → Option α
  | .eps, s, cap, k => k s cap
  | .cls p, s, cap, k =>
      match s with
      | [] => none
      | c :: rest => if p c then k rest cap else none
  | .cat a b, s, cap, k => mtch a s cap (fun s1 c1 => mtch b s1 c1 k)
  | .alt a b, s, cap, k => (mtch a s cap k) <|> (mtch b s cap k)
  | .starCls g p, s, cap, k =>
      if g then starGRun p s (fun s1 => k s1 cap)
      else starLRun p s (fun s1 => k s1 cap)
  | .plusCls g p, s, cap, k =>
      match s with
      | [] => none
      | c :: rest =>
          if p c then
            if g then starGRun p rest (fun s1 => k s1 cap)
            else starLRun p rest (fun s1 => k s1 cap)
          else none
  | .group r, s, cap, k =>
      mtch r s cap (fun s1 _ => k s1 (some (s.take (s.length - s1.length))))

/-- Python `re.search` semantics: try to match at each position, leftmost first;
on success return the text captured by group 1. -/
def searchFrom (r : RE) (s : List Char) : Option (List Char) :=
  match mtch r s none (fun _ cap => some (cap.getD [])) with
  | some g => some g
  | none =>
      match s with
      | [] => none
      | _ :: rest => searchFrom r rest

/-- Match anchored at the start, returning the remaining input on success
(used by `reSubAll` to know where a match ends). -/
def matchEnd (r : RE) (s : List Char) : Option (List Char) :=
  mtch r s none (fun rest _ => some rest)

/-- Fuelled worker for `reSubAll`. -/
def reSubAllAux (r : RE) : Nat → List Char → List Char
  | 0, s => s
  | _ + 1, [] => []
  | fuel + 1, c :: rest =>
      match matchEnd r (c :: rest) with
      | some s1 => reSubAllAux r fuel s1
      | none => c :: reSubAllAux r fuel rest

/-- Python `re.sub(pattern, '', s)`: delete every non-overlapping match,
scanning left to right (the patterns used here never match empty). -/
def reSubAll (r : RE) (s : List Char) : List Char := reSubAllAux r s.length s

/-- Case-insensitive literal (IGNORECASE flag of the source patterns). -/
def litCI (s : String) : RE :=
  s.data.foldr (fun c acc => RE.cat (RE.cls (fun x => lowerC x == lowerC c)) acc) RE.eps

/-- Concatenation of a pattern list. -/
def reSeq (l : List RE) : RE := l.foldr RE.cat RE.eps

/-- Pattern `\s*` (greedy). -/
def wsStar : RE := RE.starCls true isSpaceB

/-- Pattern `\s+` (greedy). -/
def wsPlus : RE := RE.plusCls true isSpaceB

/-- Pattern `(\S+)` without the group: one or more non-whitespace characters. -/
def nonWsPlus : RE := RE.plusCls true (fun c => !isSpaceB c)

/-- Pattern `[:\s]*` (greedy). -/
def colonWsStar : RE := RE.starCls true (fun c => c == ':' || isSpaceB c)

/-- Pattern `[-\s:]*` (greedy). -/
def dashColonWsStar : RE := RE.starCls true (fun c => c == '-' || isSpaceB c || c == ':')

/-- Pattern `(.*?)` without the group: lazy any-character star (DOTALL). -/
def dotLazyStar : RE := RE.starCls false (fun _ => true)

/-- Pattern `(?:Roll\s*Number|Roll\s*No)\s*[:\s]*(\S+)`, IGNORECASE. -/
def rollRE : RE :=
  reSeq [RE.alt (reSeq [litCI "roll", wsStar, litCI "number"])
                (reSeq [litCI "roll", wsStar, litCI "no"]),
         wsStar, colonWsStar, RE.group nonWsPlus]

/-- Pattern `(?:Certificate\s*ID|Cert\s*ID|ID\s*)\s*[:\s]*(\S+)`, IGNORECASE. -/
def idRE : RE :=
  reSeq [RE.alt (reSeq [litCI "certificate", wsStar, litCI "id"])
                (RE.alt (reSeq [litCI "cert", wsStar, litCI "id"])
                        (reSeq [litCI "id", wsStar])),
         wsStar, colonWsStar, RE.group nonWsPlus]

/-- Pattern `(?:Grade\s*[-\s:]*|with\s*Grade\s*[-\s:]*)\s*(\S)`, IGNORECASE. -/
def gradeRE : RE :=
  reSeq [RE.alt (reSeq [litCI "grade", dashColonWsStar])
                (reSeq [litCI "with", wsStar, litCI "grade", dashColonWsStar]),
         wsStar, RE.group (RE.cls (fun c => !isSpaceB c))]

/-- Pattern `completed the course of\s*(.*?)\s*(authorized by|with Grade)`,
IGNORECASE and DOTALL. -/
def courseRE : RE :=
  reSeq [litCI "completed the course of", wsStar, RE.group dotLazyStar, wsStar,
         RE.alt (litCI "authorized by") (litCI "with grade")]

/-- Pattern `(?:an\s+online\s+non-credit\s+course|a\s+non-credit\s+course)`, IGNORECASE:
boilerplate stripped from the captured course name. -/
def boilerplateRE : RE :=
  RE.alt (reSeq [litCI "an", wsPlus, litCI "online", wsPlus, litCI "non-credit",
                 wsPlus, litCI "course"])
         (reSeq [litCI "a", wsPlus, litCI "non-credit", wsPlus, litCI "course"])

/-- Pattern `course of\s*([A-Z0-9\s]+)`, IGNORECASE (the fallback course pattern);
with IGNORECASE the class covers both letter cases. -/
def courseFallbackRE : RE :=
  reSeq [litCI "course of", wsStar,
         RE.group (RE.plusCls true (fun c =>
           ('A' ≤ c && c ≤ 'Z') || ('a' ≤ c && c ≤ 'z') ||
           ('0' ≤ c && c ≤ '9') || isSpaceB c))]

/-! ## The extracted record (final1.py `extracted_data`) -/

/-- The fixed six-field record built by `extract_fields`.  The source dict
keys are "University Name", "Certificate Holder Name", "Course", "Grade",
"Roll No", "Certificate ID", in that insertion order. -/
structure Record where
  universityName : String
  holderName : String
  course : String
  grade : String
  rollNo : String
  certificateId : String
deriving DecidableEq, Repr

/-- The all-sentinel record initialised at the top of `extract_fields`. -/
def sentinelRecord : Record :=
  { universityName := "N/A", holderName := "N/A", course := "N/A",
    grade := "N/A", rollNo := "N/A", certificateId := "N/A" }

/-! ## Positional heuristics of `extract_fields` -/

/-- Source `text_lines`: the stripped, nonempty recognized texts, in scan order. -/
def textLines (spans : List String) : List (List Char) :=
  (spans.map (fun t => trimL t.data)).filter (fun l => !l.isEmpty)

/-- Source `all_text`: all stripped, nonempty texts joined by single spaces. -/
def allText (spans : List String) : List Char :=
  joinSpace (textLines spans)

/-- Line test of the university scan: contains 'Institute', 'University' or
'Technology' (case-sensitive, as in the source). -/
def uniKeyword (l : List Char) : Bool :=
  containsSub "Institute".data l || containsSub "University".data l ||
    containsSub "Technology".data l

/-- Continuation test of the university scan: at most 4 words and containing
'of' or 'technology' case-insensitively. -/
def contOK (l : List Char) : Bool :=
  (splitWs l).length ≤ 4 &&
    (containsSub "of".data (toLowerL l) || containsSub "technology".data (toLowerL l))

/-- Collect continuation lines until the first failing one (the source loop
breaks on the first line failing `contOK`). -/
def uniTake : List (List Char) → List (List Char)
  | [] => []
  | l :: rest => if contOK (trimL l) then trimL l :: uniTake rest else []

/-- The university scan: the first keyword line starts the name; up to two
following lines are joined while they pass `contOK`.  Returns the joined
name (or `none`) and `uni_end_idx`, the index one past the last consumed
line (0 when no keyword line exists, as initialised in the source). -/
def uniScan (lines : List (List Char)) : Option (List Char) × Nat :=
  match List.findIdx? uniKeyword lines with
  | none => (none, 0)
  | some start =>
      let taken := uniTake ((lines.drop (start + 1)).take 2)
      (some (trimL (joinSpace (lines.getD start [] :: taken))), start + 1 + taken.length)

/-- Holder-name line test: at least two words and none of the exclusion
keywords 'course', 'roll', 'id', 'successfully' (case-insensitive). -/
def holderOK (l : List Char) : Bool :=
  (splitWs l).length ≥ 2 &&
    !containsSub "course".data (toLowerL l) &&
    !containsSub "roll".data (toLowerL l) &&
    !containsSub "id".data (toLowerL l) &&
    !containsSub "successfully".data (toLowerL l)

/-- Holder-name scan: first line from `uni_end_idx` on passing `holderOK`. -/
def holderFind (lines : List (List Char)) (startIdx : Nat) : Option (List Char) :=
  (lines.drop startIdx).find? holderOK

/-! ## The six heuristic steps of `extract_fields`, in source order -/

/-- Step 1: university name. -/
def uniStep (spans : List String) (r : Record) : Record :=
  match (uniScan (textLines spans)).1 with
  | some u => { r with universityName := String.mk u }
  | none => r

/-- Step 2: certificate holder name. -/
def holderStep (spans : List String) (r : Record) : Record :=
  match holderFind (textLines spans) (uniScan (textLines spans)).2 with
  | some h => { r with holderName := String.mk h }
  | none => r

/-- Step 3: roll number by regex over `all_text`. -/
def rollStep (spans : List String) (r : Record) : Record :=
  match searchFrom rollRE (allText spans) with
  | some g => { r with rollNo := String.mk (trimL g) }
  | none => r

/-- Step 4: certificate ID by regex over `all_text`. -/
def idStep (spans : List String) (r : Record) : Record :=
  match searchFrom idRE (allText spans) with
  | some g => { r with certificateId := String.mk (trimL g) }
  | none => r

/-- Step 5: grade by regex over `all_text`. -/
def gradeStep (spans : List String) (r : Record) : Record :=
  match searchFrom gradeRE (allText spans) with
  | some g => { r with grade := String.mk (trimL g) }
  | none => r

/-- Step 6a: course by the main regex, with boilerplate phrases deleted. -/
def courseMainStep (spans : List String) (r : Record) : Record :=
  match searchFrom courseRE (allText spans) with
  | some g => { r with course := String.mk (trimL (reSubAll boilerplateRE (trimL g))) }
  | none => r

/-- Step 6b: fallback course regex, applied only when the course field is
still the sentinel. -/
def courseFbStep (spans : List String) (r : Record) : Record :=
  if r.course = "N/A" then
    match searchFrom courseFallbackRE (allText spans) with
    | some g => { r with course := String.mk (trimL g) }
    | none => r
  else r

/-- Step 6: full course heuristic. -/
def courseStep (spans : List String) (r : Record) : Record :=
  courseFbStep spans (courseMainStep spans r)

/-! ## Staged execution (for the partial-failure behaviour of the
`try`/`except` in `extract_fields`) -/

/-- Record after 0 completed heuristics. -/
def rec0 : Record := sentinelRecord

/-- Record after the university heuristic. -/
def rec1 (spans : List String) : Record := uniStep spans rec0

/-- Record after the holder heuristic. -/
def rec2 (spans : List String) : Record := holderStep spans (rec1 spans)

/-- Record after the roll-number heuristic. -/
def rec3 (spans : List String) : Record := rollStep spans (rec2 spans)

/-- Record after the certificate-ID heuristic. -/
def rec4 (spans : List String) : Record := idStep spans (rec3 spans)

/-- Record after the grade heuristic. -/
def rec5 (spans : List String) : Record := gradeStep spans (rec4 spans)

/-- Record after the course heuristic (the full pipeline). -/
def rec6 (spans : List String) : Record := courseStep spans (rec5 spans)

/-- The record returned when an exception interrupts the `try` body of
`extract_fields` after `k` heuristics have completed: the `except` branch
returns the partially mutated `extracted_data` dict. -/
def extractStage (spans : List String) (k : Nat) : Record :=
  if k = 0 then rec0
  else if k = 1 then rec1 spans
  else if k = 2 then rec2 spans
  else if k = 3 then rec3 spans
  else if k = 4 then rec4 spans
  else if k = 5 then rec5 spans
  else rec6 spans

/-- The `try` body of `extract_fields` run to completion on the recognized
text spans. -/
def extractFromSpans (spans : List String) : Record := rec6 spans

/-- final1.py `extract_fields`.  `readerOk` models `READER` being
initialised, `pathExists` models `os.path.exists(image_path)`, and `spans`
models the texts returned by `READER.readtext(image_path)`.  When the
reader is unavailable or the path is missing, the all-sentinel record is
returned before any OCR work. -/
def extract_fields (readerOk pathExists : Bool) (spans : List String) : Record :=
  if !readerOk || !pathExists then sentinelRecord
  else extractFromSpans spans

/-! ## Similarity mapper post-processing (generate_ssim_heatmap)

The raw SSIM map is a grid of local similarity scores; its shape is
irrelevant to the post-processing, which is pointwise, so it is modelled
as a list of rationals.  The source computes
`(ssim_map - min) / (max - min)` and `1 - that`; when `max = min` the
divisor is zero and every entry becomes NaN in the float code, which the
embedding represents as `none` (no well-defined surface). -/

/-- Numpy `np.min` over the map entries (0 for the empty map, which cannot occur
for a decoded image). -/
def fieldMin : List ℚ → ℚ
  | [] => 0
  | x :: xs => xs.foldl min x

/-- Numpy `np.max` over the map entries. -/
def fieldMax : List ℚ → ℚ
  | [] => 0
  | x :: xs => xs.foldl max x

/-- The divisor `np.max(ssim_map) - np.min(ssim_map)` of the normalization
step. -/
def normDivisor (m : List ℚ) : ℚ := fieldMax m - fieldMin m

/-- The suspicion surface before blur: per-call min/max normalization of
the SSIM map followed by inversion, `1 - (v - min) / (max - min)`.
`none` models the zero-divisor case, where the float code produces NaN at
every entry. -/
def suspicionSurface (m : List ℚ) : Option (List ℚ) :=
  if normDivisor m = 0 then none
  else some (m.map (fun v => 1 - (v - fieldMin m) / normDivisor m))

/-- skimage's global SSIM score: the mean of the local SSIM map. -/
def globalScore (m : List ℚ) : ℚ := m.sum / (m.length : ℚ)

/-! ## The local SSIM value (standard windowed SSIM formulation) -/

/-- SSIM stabilization constant C1 = (0.01 * 255)^2 for 8-bit images. -/
def kC1 : ℚ := 65025 / 10000

/-- SSIM stabilization constant C2 = (0.03 * 255)^2 for 8-bit images. -/
def kC2 : ℚ := 585225 / 10000

/-- Local window statistics of a reference/candidate pair: means, variances
and covariance over one comparison window. -/
structure WindowPair where
  mux : ℚ
  muy : ℚ
  sx2 : ℚ
  sy2 : ℚ
  sxy : ℚ
deriving DecidableEq

/-- The local SSIM value of one window,
`((2 μx μy + C1)(2 σxy + C2)) / ((μx² + μy² + C1)(σx² + σy² + C2))`. -/
def ssimVal (w : WindowPair) : ℚ :=
  ((2 * w.mux * w.muy + kC1) * (2 * w.sxy + kC2)) /
    ((w.mux ^ 2 + w.muy ^ 2 + kC1) * (w.sx2 + w.sy2 + kC2))

/-- The window statistics of a pixel-identical pair: equal means, and the
covariance equal to the common variance. -/
def selfPair (mu s2 : ℚ) : WindowPair :=
  { mux := mu, muy := mu, sx2 := s2, sy2 := s2, sxy := s2 }

/-! ## Heatmap service wrapper (ocr_service.generate_ssim_heatmap)

The wrapper's control flow is driven by four independent conditions of the
environment, modelled as booleans; the result records the returned flag and
which kind of file the call wrote to the caller-specified output path. -/

/-- Environment of one `generate_ssim_heatmap` call: whether the reference
template path exists, whether each image decodes (`cv2.imread` non-None),
and whether a processing exception occurs inside the `try` block before the
`plt.savefig` call. -/
structure SsimEnv where
  refExists : Bool
  refDecodes : Bool
  testDecodes : Bool
  processFails : Bool
deriving DecidableEq

/-- Outcome of one `generate_ssim_heatmap` call: the returned boolean, and
whether a blank placeholder or a real heatmap was written to the output
path. -/
structure SsimOut where
  succeeded : Bool
  placeholderWritten : Bool
  heatmapWritten : Bool
deriving DecidableEq

/-- ocr_service.py `generate_ssim_heatmap`: a missing reference template
writes a blank placeholder and returns False; a decode failure returns
False with nothing written; an exception in the `try` block returns False
with nothing written; otherwise the heatmap is saved and True returned. -/
def generate_ssim_heatmap (e : SsimEnv) : SsimOut :=
  if !e.refExists then
    { succeeded := false, placeholderWritten := true, heatmapWritten := false }
  else if !e.refDecodes || !e.testDecodes then
    { succeeded := false, placeholderWritten := false, heatmapWritten := false }
  else if e.processFails then
    { succeeded := false, placeholderWritten := false, heatmapWritten := false }
  else
    { succeeded := true, placeholderWritten := false, heatmapWritten := true }

/-- Similarity scoring failed: the reference template is absent, an image
failed to decode, or a processing exception occurred. -/
def scoringFails (e : SsimEnv) : Bool :=
  !e.refExists || !e.refDecodes || !e.testDecodes || e.processFails

/-- Some image file (placeholder or heatmap) was written to the
caller-specified output path. -/
def outputWritten (o : SsimOut) : Bool :=
  o.placeholderWritten || o.heatmapWritten

/-! ## Request processor (ocr_service.process_certificate)

The filesystem is modelled as the list of existing file paths. -/

/-- ocr_service.py `process_certificate`: run field extraction on the
uploaded file, generate the heatmap (writing to `heatmapPath` when the
wrapper writes at all), then delete the uploaded file if it exists.
Returns the extracted record, the heatmap path and the final filesystem. -/
def process_certificate (readerOk pathExists : Bool) (spans : List String)
    (e : SsimEnv) (fs : List String) (filePath heatmapPath : String) :
    Record × String × List String :=
  let extracted := extract_fields readerOk pathExists spans
  let out := generate_ssim_heatmap e
  let fs1 := if outputWritten out then heatmapPath :: fs else fs
  let fs2 := fs1.filter (fun p => !(p == filePath))
  (extracted, heatmapPath, fs2)

/-! ## CSV sink (final1.save_to_csv)

The tabular log file is modelled as `Option (List (List String))`: `none`
when the file does not exist, otherwise its rows. -/

/-- The six fixed field names, in the dict insertion order of
`extracted_data` (the keys of the first record). -/
def headerNames : List String :=
  ["University Name", "Certificate Holder Name", "Course", "Grade",
   "Roll No", "Certificate ID"]

/-- One CSV row of a record, in the header order. -/
def recordRow (r : Record) : List String :=
  [r.universityName, r.holderName, r.course, r.grade, r.rollNo, r.certificateId]

/-- final1.py `save_to_csv`: an empty record list returns immediately with
no file operation; otherwise the file is opened in append mode (created if
absent), the header row is written exactly when the file did not already
exist, and one row per record is appended. -/
def save_to_csv (dataList : List Record) (file : Option (List (List String))) :
    Option (List (List String)) :=
  match dataList with
  | [] => file
  | _ :: _ =>
      some (file.getD [] ++ (if file.isSome then [] else [headerNames]) ++
            dataList.map recordRow)

/-- The text-span sequence of the spec's extraction scenario (claim C1). -/
def c1Spans : List String :=
  ["XYZ University of Technology", "presents this certificate to", "John Doe",
   "for successfully completed the course of Machine Learning authorized by XYZ with Grade A",
   "Roll Number: 12345", "Certificate ID: CERT-99"]

/-- The record the spec's scenario expects for `c1Spans`. -/
def c1Expected : Record :=
  { universityName := "XYZ University of Technology", holderName := "John Doe",
    course := "Machine Learning", grade := "A", rollNo := "12345",
    certificateId := "CERT-99" }

/-! ## Helper lemmas -/

lemma foldl_min_le_init (xs : List ℚ) (a : ℚ) : xs.foldl min a ≤ a := by
  induction xs generalizing a with
  | nil => exact le_refl a
  | cons c xs ih =>
      calc (c :: xs).foldl min a = xs.foldl min (min a c) := rfl
      _ ≤ min a c := ih (min a c)
      _ ≤ a := min_le_left a c

lemma foldl_min_le_mem (xs : List ℚ) (a x : ℚ) (hx : x ∈ xs) : xs.foldl min a ≤ x := by
  induction xs generalizing a with
  | nil => cases hx
  | cons c xs ih =>
      rcases List.mem_cons.1 hx with rfl | hx2
      · calc (x :: xs).foldl min a = xs.foldl min (min a x) := rfl
        _ ≤ min a x := foldl_min_le_init xs (min a x)
        _ ≤ x := min_le_right a x
      · exact ih (min a c) hx2

lemma init_le_foldl_max (xs : List ℚ) (a : ℚ) : a ≤ xs.foldl max a := by
  induction xs generalizing a with
  | nil => exact le_refl a
  | cons c xs ih =>
      calc a ≤ max a c := le_max_left a c
      _ ≤ xs.foldl max (max a c) := ih (max a c)
      _ = (c :: xs).foldl max a := rfl

lemma mem_le_foldl_max (xs : List ℚ) (a x : ℚ) (hx : x ∈ xs) : x ≤ xs.foldl max a := by
  induction xs generalizing a with
  | nil => cases hx
  | cons c xs ih =>
      rcases List.mem_cons.1 hx with rfl | hx2
      · calc x ≤ max a x := le_max_right a x
        _ ≤ xs.foldl max (max a x) := init_le_foldl_max xs (max a x)
        _ = (x :: xs).foldl max a := rfl
      · exact ih (max a c) hx2

lemma fieldMin_le_mem (m : List ℚ) (x : ℚ) (hx : x ∈ m) : fieldMin m ≤ x := by
  cases m with
  | nil => cases hx
  | cons a t =>
      rcases List.mem_cons.1 hx with rfl | hx2
      · exact foldl_min_le_init t x
      · exact foldl_min_le_mem t a x hx2

lemma mem_le_fieldMax (m : List ℚ) (x : ℚ) (hx : x ∈ m) : x ≤ fieldMax m := by
  cases m with
  | nil => cases hx
  | cons a t =>
      rcases List.mem_cons.1 hx with rfl | hx2
      · exact init_le_foldl_max t x
      · exact mem_le_foldl_max t a x hx2

lemma foldl_min_replicate (x : ℚ) (m : Nat) : (List.replicate m x).foldl min x = x := by
  induction m with
  | zero => rfl
  | succ n ih => simpa [List.replicate_succ, min_self] using ih

lemma foldl_max_replicate (x : ℚ) (m : Nat) : (List.replicate m x).foldl max x = x := by
  induction m with
  | zero => rfl
  | succ n ih => simpa [List.replicate_succ, max_self] using ih

lemma normDivisor_replicate (n : Nat) (x : ℚ) : normDivisor (List.replicate n x) = 0 := by
  cases n with
  | zero => simp [normDivisor, fieldMin, fieldMax]
  | succ m =>
      simp only [normDivisor, List.replicate_succ, fieldMin, fieldMax,
        foldl_min_replicate, foldl_max_replicate, sub_self]

lemma suspicionSurface_replicate (n : Nat) (x : ℚ) :
    suspicionSurface (List.replicate n x) = none := by
  simp [suspicionSurface, normDivisor_replicate]

lemma ssimVal_self (mu s2 : ℚ) (h : 0 ≤ s2) : ssimVal (selfPair mu s2) = 1 := by
  have hsq : (0:ℚ) ≤ mu ^ 2 := sq_nonneg mu
  have hc1 : (0:ℚ) < kC1 := by norm_num [kC1]
  have hc2 : (0:ℚ) < kC2 := by norm_num [kC2]
  have h1 : (0:ℚ) < mu ^ 2 + mu ^ 2 + kC1 := by linarith
  have h2 : (0:ℚ) < s2 + s2 + kC2 := by linarith
  simp only [ssimVal, selfPair]
  rw [show (2 * mu * mu + kC1) * (2 * s2 + kC2)
      = (mu ^ 2 + mu ^ 2 + kC1) * (s2 + s2 + kC2) from by ring]
  exact div_self (ne_of_gt (mul_pos h1 h2))

lemma map_ssim_self (ws : List WindowPair)
    (h2 : ∀ w ∈ ws, ∃ mu s2, 0 ≤ s2 ∧ w = selfPair mu s2) :
    ws.map ssimVal = List.replicate ws.length 1 := by
  induction ws with
  | nil => rfl
  | cons a t ih =>
      obtain ⟨mu, s2, hs, ha⟩ := h2 a (List.mem_cons_self a t)
      have ht := ih (fun w hw => h2 w (List.mem_cons_of_mem a hw))
      simp [List.replicate_succ, ha, ssimVal_self mu s2 hs, ht]

lemma all_ne_of_filter (x : String) (l : List String) :
    ((l.filter (fun p => !(p == x))).all (fun p => !(p == x))) = true := by
  induction l with
  | nil => rfl
  | cons a t ih =>
      simp only [List.filter]
      cases h : (!(a == x)) with
      | false => exact ih
      | true => simp [List.all_cons, h, ih]

/-! ## Frame lemmas: each heuristic step writes only its own field -/

lemma uniStep_holder (spans : List String) (r : Record) :
    (uniStep spans r).holderName = r.holderName := by
  unfold uniStep; cases (uniScan (textLines spans)).1 <;> rfl

lemma uniStep_roll (spans : List String) (r : Record) :
    (uniStep spans r).rollNo = r.rollNo := by
  unfold uniStep; cases (uniScan (textLines spans)).1 <;> rfl

lemma uniStep_cid (spans : List String) (r : Record) :
    (uniStep spans r).certificateId = r.certificateId := by
  unfold uniStep; cases (uniScan (textLines spans)).1 <;> rfl

lemma uniStep_grade (spans : List String) (r : Record) :
    (uniStep spans r).grade = r.grade := by
  unfold uniStep; cases (uniScan (textLines spans)).1 <;> rfl

lemma uniStep_course (spans : List String) (r : Record) :
    (uniStep spans r).course = r.course := by
  unfold uniStep; cases (uniScan (textLines spans)).1 <;> rfl

lemma holderStep_univ (spans : List String) (r : Record) :
    (holderStep spans r).universityName = r.universityName := by
  unfold holderStep; cases holderFind (textLines spans) (uniScan (textLines spans)).2 <;> rfl

lemma holderStep_roll (spans : List String) (r : Record) :
    (holderStep spans r).rollNo = r.rollNo := by
  unfold holderStep; cases holderFind (textLines spans) (uniScan (textLines spans)).2 <;> rfl

lemma holderStep_cid (spans : List String) (r : Record) :
    (holderStep spans r).certificateId = r.certificateId := by
  unfold holderStep; cases holderFind (textLines spans) (uniScan (textLines spans)).2 <;> rfl

lemma holderStep_grade (spans : List String) (r : Record) :
    (holderStep spans r).grade = r.grade := by
  unfold holderStep; cases holderFind (textLines spans) (uniScan (textLines spans)).2 <;> rfl

lemma holderStep_course (spans : List String) (r : Record) :
    (holderStep spans r).course = r.course := by
  unfold holderStep; cases holderFind (textLines spans) (uniScan (textLines spans)).2 <;> rfl

lemma rollStep_univ (spans : List String) (r : Record) :
    (rollStep spans r).universityName = r.universityName := by
  unfold rollStep; cases searchFrom rollRE (allText spans) <;> rfl

lemma rollStep_holder (spans : List String) (r : Record) :
    (rollStep spans r).holderName = r.holderName := by
  unfold rollStep; cases searchFrom rollRE (allText spans) <;> rfl

lemma rollStep_cid (spans : List String) (r : Record) :
    (rollStep spans r).certificateId = r.certificateId := by
  unfold rollStep; cases searchFrom rollRE (allText spans) <;> rfl

lemma rollStep_grade (spans : List String) (r : Record) :
    (rollStep spans r).grade = r.grade := by
  unfold rollStep; cases searchFrom rollRE (allText spans) <;> rfl

lemma rollStep_course (spans : List String) (r : Record) :
    (rollStep spans r).course = r.course := by
  unfold rollStep; cases searchFrom rollRE (allText spans) <;> rfl

lemma idStep_univ (spans : List String) (r : Record) :
    (idStep spans r).universityName = r.universityName := by
  unfold idStep; cases searchFrom idRE (allText spans) <;> rfl

lemma idStep_holder (spans : List String) (r : Record) :
    (idStep spans r).holderName = r.holderName := by
  unfold idStep; cases searchFrom idRE (allText spans) <;> rfl

lemma idStep_roll (spans : List String) (r : Record) :
    (idStep spans r).rollNo = r.rollNo := by
  unfold idStep; cases searchFrom idRE (allText spans) <;> rfl

lemma idStep_grade (spans : List String) (r : Record) :
    (idStep spans r).grade = r.grade := by
  unfold idStep; cases searchFrom idRE (allText spans) <;> rfl

lemma idStep_course (spans : List String) (r : Record) :
    (idStep spans r).course = r.course := by
  unfold idStep; cases searchFrom idRE (allText spans) <;> rfl

lemma gradeStep_univ (spans : List String) (r : Record) :
    (gradeStep spans r).universityName = r.universityName := by
  unfold gradeStep; cases searchFrom gradeRE (allText spans) <;> rfl

lemma gradeStep_holder (spans : List String) (r : Record) :
    (gradeStep spans r).holderName = r.holderName := by
  unfold gradeStep; cases searchFrom gradeRE (allText spans) <;> rfl

lemma gradeStep_roll (spans : List String) (r : Record) :
    (gradeStep spans r).rollNo = r.rollNo := by
  unfold gradeStep; cases searchFrom gradeRE (allText spans) <;> rfl

lemma gradeStep_cid (spans : List String) (r : Record) :
    (gradeStep spans r).certificateId = r.certificateId := by
  unfold gradeStep; cases searchFrom gradeRE (allText spans) <;> rfl

lemma gradeStep_course (spans : List String) (r : Record) :
    (gradeStep spans r).course = r.course := by
  unfold gradeStep; cases searchFrom gradeRE (allText spans) <;> rfl

lemma courseMainStep_univ (spans : List String) (r : Record) :
    (courseMainStep spans r).universityName = r.universityName := by
  unfold courseMainStep; cases searchFrom courseRE (allText spans) <;> rfl

lemma courseMainStep_holder (spans : List String) (r : Record) :
    (courseMainStep spans r).holderName = r.holderName := by
  unfold courseMainStep; cases searchFrom courseRE (allText spans) <;> rfl

lemma courseMainStep_roll (spans : List String) (r : Record) :
    (courseMainStep spans r).rollNo = r.rollNo := by
  unfold courseMainStep; cases searchFrom courseRE (allText spans) <;> rfl

lemma courseMainStep_cid (spans : List String) (r : Record) :
    (courseMainStep spans r).certificateId = r.certificateId := by
  unfold courseMainStep; cases searchFrom courseRE (allText spans) <;> rfl

lemma courseMainStep_grade (spans : List String) (r : Record) :
    (courseMainStep spans r).grade = r.grade := by
  unfold courseMainStep; cases searchFrom courseRE (allText spans) <;> rfl

lemma courseFbStep_univ (spans : List String) (r : Record) :
    (courseFbStep spans r).universityName = r.universityName := by
  unfold courseFbStep
  split
  · cases searchFrom courseFallbackRE (allText spans) <;> rfl
  · rfl

lemma courseFbStep_holder (spans : List String) (r : Record) :
    (courseFbStep spans r).holderName = r.holderName := by
  unfold courseFbStep
  split
  · cases searchFrom courseFallbackRE (allText spans) <;> rfl
  · rfl

lemma courseFbStep_roll (spans : List String) (r : Record) :
    (courseFbStep spans r).rollNo = r.rollNo := by
  unfold courseFbStep
  split
  · cases searchFrom courseFallbackRE (allText spans) <;> rfl
  · rfl

lemma courseFbStep_cid (spans : List String) (r : Record) :
    (courseFbStep spans r).certificateId = r.certificateId := by
  unfold courseFbStep
  split
  · cases searchFrom courseFallbackRE (allText spans) <;> rfl
  · rfl

lemma courseFbStep_grade (spans : List String) (r : Record) :
    (courseFbStep spans r).grade = r.grade := by
  unfold courseFbStep
  split
  · cases searchFrom courseFallbackRE (allText spans) <;> rfl
  · rfl

lemma courseStep_univ (spans : List String) (r : Record) :
    (courseStep spans r).universityName = r.universityName := by
  unfold courseStep; rw [courseFbStep_univ, courseMainStep_univ]

lemma courseStep_holder (spans : List String) (r : Record) :
    (courseStep spans r).holderName = r.holderName := by
  unfold courseStep; rw [courseFbStep_holder, courseMainStep_holder]

lemma courseStep_roll (spans : List String) (r : Record) :
    (courseStep spans r).rollNo = r.rollNo := by
  unfold courseStep; rw [courseFbStep_roll, courseMainStep_roll]

lemma courseStep_cid (spans : List String) (r : Record) :
    (courseStep spans r).certificateId = r.certificateId := by
  unfold courseStep; rw [courseFbStep_cid, courseMainStep_cid]

lemma courseStep_grade (spans : List String) (r : Record) :
    (courseStep spans r).grade = r.grade := by
  unfold courseStep; rw [courseFbStep_grade, courseMainStep_grade]

/-! ## Claim theorems -/

/-- C1: evaluating the extraction pipeline on the spec scenario's six text
spans.  The code's record agrees with the spec's expected record on five
fields but assigns Certificate Holder Name = "presents this certificate to"
instead of "John Doe": the holder heuristic — contrary to the title-case
check described in its own source comment — accepts the first line with at
least two words and none of the exclusion keywords, and that is the line
directly after the university name. -/
theorem c1_extraction_at_scenario :
    extract_fields true true c1Spans =
      { universityName := "XYZ University of Technology",
        holderName := "presents this certificate to",
        course := "Machine Learning", grade := "A", rollNo := "12345",
        certificateId := "CERT-99" } ∧
    extract_fields true true c1Spans ≠ c1Expected := by decide

/-- C2: whenever the text-location engine is unavailable or the input path
does not exist, `extract_fields` returns the record with all six fields
equal to the sentinel, and (being a total function) raises no error. -/
theorem c2_unavailable_all_sentinel (readerOk pathExists : Bool)
    (spans : List String) (h : readerOk = false ∨ pathExists = false) :
    extract_fields readerOk pathExists spans = sentinelRecord := by
  rcases h with h | h <;> subst h <;> simp [extract_fields]

/-- Witness for C2 at a concrete input: engine unavailable, path present. -/
theorem c2_unavailable_all_sentinel_witness :
    (false = false ∨ true = false) ∧
      extract_fields false true ["Some Text"] = sentinelRecord :=
  ⟨Or.inl rfl, c2_unavailable_all_sentinel false true ["Some Text"] (Or.inl rfl)⟩

/-- C5 counterexample: when the reference template exists but the candidate
image fails to decode, similarity scoring fails yet `generate_ssim_heatmap`
writes nothing at all to the output path (no placeholder, no heatmap) — the
claim that every scoring failure writes a placeholder is false at this
input. -/
theorem c5_decode_failure_writes_nothing :
    scoringFails
        { refExists := true, refDecodes := true, testDecodes := false,
          processFails := false } = true ∧
      outputWritten (generate_ssim_heatmap
        { refExists := true, refDecodes := true, testDecodes := false,
          processFails := false }) = false := by decide

/-- C5 amended: a blank placeholder is written exactly when the reference
template is absent; an output file of any kind is written exactly when the
reference is absent (placeholder) or the whole pipeline succeeds (real
heatmap) — decode failures and processing exceptions return the failure
flag with nothing written. -/
theorem c5_placeholder_iff_ref_missing (e : SsimEnv) :
    ((generate_ssim_heatmap e).placeholderWritten = true ↔ e.refExists = false) ∧
      (outputWritten (generate_ssim_heatmap e) = true ↔
        (e.refExists = false ∨ scoringFails e = false)) := by
  rcases e with ⟨a, b, c, d⟩
  cases a <;> cases b <;> cases c <;> cases d <;> decide

/-- C6: on every exit path of `process_certificate` — including those where
extraction degrades to the sentinel record and those where heatmap
generation fails in any mode — every file remaining in the final filesystem
differs from the uploaded temporary file path: the upload is deleted by the
time the call finishes. -/
theorem c6_upload_always_deleted (readerOk pathExists : Bool)
    (spans : List String) (e : SsimEnv) (fs : List String)
    (filePath heatmapPath : String) :
    ((process_certificate readerOk pathExists spans e fs
        filePath heatmapPath).2.2).all (fun p => !(p == filePath)) = true := by
  simp only [process_certificate]
  exact all_ne_of_filter filePath _

/-- C7: on the empty text-span sequence all six fields equal the sentinel
and the (total) extraction returns normally. -/
theorem c7_empty_spans_all_sentinel :
    extract_fields true true [] = sentinelRecord := by decide

/-- C8: for a non-empty record list the rows are appended to the existing
log content, and the header row (the six field names in fixed order) is
written exactly when the file did not exist before the call. -/
theorem c8_append_and_header (ds : List Record) (h : ds ≠ [])
    (old : List (List String)) :
    save_to_csv ds (some old) = some (old ++ ds.map recordRow) ∧
      save_to_csv ds none = some (headerNames :: ds.map recordRow) := by
  cases ds with
  | nil => exact absurd rfl h
  | cons d t => constructor <;> simp [save_to_csv]

/-- Witness for C8 at a concrete input: one record, one pre-existing row. -/
theorem c8_append_and_header_witness :
    ([sentinelRecord] : List Record) ≠ [] ∧
      (save_to_csv [sentinelRecord] (some [["x"]]) =
          some ([["x"]] ++ [sentinelRecord].map recordRow) ∧
        save_to_csv [sentinelRecord] none =
          some (headerNames :: [sentinelRecord].map recordRow)) :=
  ⟨by simp, c8_append_and_header [sentinelRecord] (by simp) [["x"]]⟩

/-- C10: with an empty record list `save_to_csv` performs no file
operation: the log-file state is returned unchanged, so a missing file is
not created, no header is written, and existing rows are untouched. -/
theorem c10_empty_list_no_file_op (file : Option (List (List String))) :
    save_to_csv [] file = file := rfl

/-- C3 counterexample: the SSIM map of a pixel-identical window pair is
constant 1, so the normalization divisor `max - min` is zero and the
suspicion surface is undefined (NaN in the float code) — the claim that the
divisor is nonzero for every input pair, including constant similarity
fields, is false at this concrete pair. -/
theorem c3_constant_field_zero_divisor :
    normDivisor ((List.replicate 4 (selfPair (1/2) (1/10))).map ssimVal) = 0 ∧
      suspicionSurface ((List.replicate 4 (selfPair (1/2) (1/10))).map ssimVal) =
        none := by
  have hm : (List.replicate 4 (selfPair (1/2) (1/10))).map ssimVal
      = List.replicate 4 (1:ℚ) := by
    rw [List.map_replicate, ssimVal_self (1/2) (1/10) (by norm_num)]
  rw [hm]
  exact ⟨normDivisor_replicate 4 1, suspicionSurface_replicate 4 1⟩

/-- C3 amended: whenever the raw similarity field is not constant (its
minimum is strictly below its maximum), the normalization divisor is
nonzero, the suspicion surface is well defined, and every one of its values
lies in the interval [0, 1]. -/
theorem c3_nonconstant_in_unit_interval (m : List ℚ)
    (h : fieldMin m < fieldMax m) :
    ∃ s, suspicionSurface m = some s ∧ ∀ v ∈ s, 0 ≤ v ∧ v ≤ 1 := by
  have hd : (0:ℚ) < normDivisor m := by
    simpa [normDivisor] using sub_pos.mpr h
  refine ⟨m.map (fun v => 1 - (v - fieldMin m) / normDivisor m), ?_, ?_⟩
  · simp only [suspicionSurface, if_neg (ne_of_gt hd)]
  · intro v hv
    obtain ⟨x, hx, rfl⟩ := List.mem_map.1 hv
    have h1 := fieldMin_le_mem m x hx
    have h2 := mem_le_fieldMax m x hx
    constructor
    · have hq : (x - fieldMin m) / normDivisor m ≤ 1 := by
        rw [div_le_one hd]
        simp only [normDivisor]
        linarith
      linarith
    · have hq : 0 ≤ (x - fieldMin m) / normDivisor m :=
        div_nonneg (by linarith) (le_of_lt hd)
      linarith

/-- Witness for the amended C3 at a concrete non-constant field. -/
theorem c3_nonconstant_in_unit_interval_witness :
    fieldMin [(0:ℚ), 1] < fieldMax [(0:ℚ), 1] ∧
      ∃ s, suspicionSurface [(0:ℚ), 1] = some s ∧ ∀ v ∈ s, 0 ≤ v ∧ v ≤ 1 :=
  ⟨by norm_num [fieldMin, fieldMax, List.foldl, min_def, max_def],
   c3_nonconstant_in_unit_interval [0, 1]
     (by norm_num [fieldMin, fieldMax, List.foldl, min_def, max_def])⟩

/-- C4 counterexample: for a pixel-identical pair the global score is 1,
but the suspicion surface is not "uniformly near 0": the SSIM map is
constant, its min/max normalization divides by zero, and no well-defined
surface exists at all. -/
theorem c4_identical_pair_surface_undefined :
    globalScore ([selfPair 0 0, selfPair (1/4) (1/2)].map ssimVal) = 1 ∧
      ¬ ∃ s,
          suspicionSurface ([selfPair 0 0, selfPair (1/4) (1/2)].map ssimVal) =
              some s ∧
            ∀ v ∈ s, |v| ≤ 1 / 100 := by
  have h0 : ssimVal (selfPair 0 0) = 1 := ssimVal_self 0 0 (le_refl 0)
  have h1 : ssimVal (selfPair (1/4) (1/2)) = 1 := ssimVal_self (1/4) (1/2) (by norm_num)
  have hm : [selfPair 0 0, selfPair (1/4) (1/2)].map ssimVal = [(1:ℚ), 1] := by
    simp only [List.map_cons, List.map_nil, h0, h1]
  constructor
  · rw [hm]
    norm_num [globalScore]
  · rw [hm]
    rintro ⟨s, hs, -⟩
    have h2 : List.replicate 2 (1:ℚ) = [1, 1] := rfl
    have h3 := suspicionSurface_replicate 2 (1:ℚ)
    rw [h2] at h3
    rw [h3] at hs
    cases hs

/-- C4 amended: for every nonempty list of pixel-identical window pairs the
global similarity score is exactly 1 and the raw inverted similarity
`1 - v` is 0 at every window; however the per-call min/max normalization of
this constant field has a zero divisor, so the normalized suspicion surface
is undefined rather than near 0. -/
theorem c4_identical_score_one_inverted_zero (ws : List WindowPair)
    (h1 : ws ≠ [])
    (h2 : ∀ w ∈ ws, ∃ mu s2, 0 ≤ s2 ∧ w = selfPair mu s2) :
    globalScore (ws.map ssimVal) = 1 ∧
      (∀ v ∈ ws.map ssimVal, 1 - v = 0) ∧
      suspicionSurface (ws.map ssimVal) = none := by
  have hm := map_ssim_self ws h2
  have hn0 : ws.length ≠ 0 := fun hl => h1 (List.length_eq_zero.mp hl)
  have hn : (ws.length : ℚ) ≠ 0 := Nat.cast_ne_zero.mpr hn0
  refine ⟨?_, ?_, ?_⟩
  · rw [hm, globalScore, List.sum_replicate, List.length_replicate,
      nsmul_eq_mul, mul_one]
    exact div_self hn
  · intro v hv
    rw [hm] at hv
    rw [List.eq_of_mem_replicate hv]
    ring
  · rw [hm]
    exact suspicionSurface_replicate ws.length 1

/-- Witness for the amended C4 at a concrete identical pair. -/
theorem c4_identical_score_one_inverted_zero_witness :
    ([selfPair 0 0] : List WindowPair) ≠ [] ∧
      (∀ w ∈ ([selfPair 0 0] : List WindowPair),
        ∃ mu s2, 0 ≤ s2 ∧ w = selfPair mu s2) ∧
      (globalScore ([selfPair 0 0].map ssimVal) = 1 ∧
        (∀ v ∈ [selfPair 0 0].map ssimVal, 1 - v = 0) ∧
        suspicionSurface ([selfPair 0 0].map ssimVal) = none) := by
  have hw : ∀ w ∈ ([selfPair 0 0] : List WindowPair),
      ∃ mu s2, 0 ≤ s2 ∧ w = selfPair mu s2 := by
    intro w hmem
    exact ⟨0, 0, le_refl 0, List.mem_singleton.1 hmem⟩
  exact ⟨by simp, hw,
    c4_identical_score_one_inverted_zero [selfPair 0 0] (by simp) hw⟩

/-- C9: when an exception interrupts the `try` body of `extract_fields`
after `k` completed heuristics, the caught-and-returned record keeps, for
every heuristic that completed (university, holder, roll, ID, grade,
course, in this order), exactly the value the full run assigns, and keeps
the sentinel for every heuristic that did not run — the result is the
partially populated record, never reset to all-sentinel, and no exception
propagates. -/
theorem c9_interrupted_extraction_keeps_completed_fields
    (spans : List String) (k : Nat) :
    (extractStage spans k).universityName =
        (if 1 ≤ k then (extractFromSpans spans).universityName else "N/A") ∧
      (extractStage spans k).holderName =
        (if 2 ≤ k then (extractFromSpans spans).holderName else "N/A") ∧
      (extractStage spans k).rollNo =
        (if 3 ≤ k then (extractFromSpans spans).rollNo else "N/A") ∧
      (extractStage spans k).certificateId =
        (if 4 ≤ k then (extractFromSpans spans).certificateId else "N/A") ∧
      (extractStage spans k).grade =
        (if 5 ≤ k then (extractFromSpans spans).grade else "N/A") ∧
      (extractStage spans k).course =
        (if 6 ≤ k then (extractFromSpans spans).course else "N/A") := by
  rcases Nat.lt_or_ge k 6 with hk | hk
  · interval_cases k <;>
      simp [extractStage, extractFromSpans, rec6, rec5, rec4, rec3, rec2, rec1,
      rec0, sentinelRecord, uniStep_holder, uniStep_roll, uniStep_cid,
      uniStep_grade, uniStep_course, holderStep_univ, holderStep_roll,
      holderStep_cid, holderStep_grade, holderStep_course, rollStep_univ,
      rollStep_holder, rollStep_cid, rollStep_grade, rollStep_course,
      idStep_univ, idStep_holder, idStep_roll, idStep_grade, idStep_course,
      gradeStep_univ, gradeStep_holder, gradeStep_roll, gradeStep_cid,
      gradeStep_course, courseStep_univ, courseStep_holder, courseStep_roll,
      courseStep_cid, courseStep_grade]
  · obtain ⟨n, rfl⟩ := Nat.exists_eq_add_of_le hk
    have hs : extractStage spans (6 + n) = rec6 spans := by
      unfold extractStage
      rw [if_neg (by omega), if_neg (by omega), if_neg (by omega),
          if_neg (by omega), if_neg (by omega), if_neg (by omega)]
    rw [hs, if_pos (by omega : 1 ≤ 6 + n), if_pos (by omega : 2 ≤ 6 + n),
        if_pos (by omega : 3 ≤ 6 + n), if_pos (by omega : 4 ≤ 6 + n),
        if_pos (by omega : 5 ≤ 6 + n), if_pos (by omega : 6 ≤ 6 + n)]
    exact ⟨rfl, rfl, rfl, rfl, rfl, rfl⟩
